import Mathlib

/-!
Verification of the Klimerko 7.0 Ultimate Modular firmware against its
natural-language specification.

The definitions below are shallow embeddings of the corresponding C++
functions from the repository:

* `src/klimerko/utils.h` — `calculateHeatIndex`, `applyEPAHumidityCorrection`,
  `clamp`, `isValidCalibrationFactor`;
* `src/klimerko/sensors.h` — `readPMSSensor` / `readBMESensor` health logic,
  `checkFanStatus`;
* `src/klimerko/storage.h` — the calibration part of `restoreSettings`;
* `src/klimerko/alarms.h` — `checkAlarms`, `initAlarms`;
* the main sketch — `changeInterval` and the `calibration` branch of
  `mqttCallback`;
* `src/pmsLibrary/PMS.cpp` — the `PMS::loop` frame decoder.

Floating-point (`float`/`double`) arithmetic of the source is modelled with
exact rational arithmetic over `ℚ`; machine integers are modelled as `Nat`
with explicit `% 2^w` reductions where the source type could wrap.  The
monotonic millisecond clock (`millis()`) is modelled as a `Nat`-valued
timestamp supplied with each input byte; the embedding assumes timestamps
are monotone and below `2^32`, so the unsigned wrap-around subtraction
`millis() - last` coincides with truncated `Nat` subtraction.  The libm
exponential used by the humidity compensation is an external function to
the source and is passed as an explicit function parameter.
-/

-- ============================================================================
-- config.h constants
-- ============================================================================

def ALARM_PM25_THRESHOLD : Int := 35

def ALARM_PM10_THRESHOLD : Int := 45

def ALARM_COOLDOWN_MS : Nat := 3600000

def SENSOR_RETRIES_OFFLINE : Nat := 3

def FAN_STUCK_THRESHOLD : Nat := 5

def ZERO_DATA_THRESHOLD : Nat := 5

def MAGNUS_BETA : ℚ := 17.62

def MAGNUS_GAMMA : ℚ := 243.12

def MIN_CAL_FACTOR : ℚ := 0.1

def MAX_CAL_FACTOR : ℚ := 10.0

def TEMP_MIN_VALID : ℚ := -40.0

def TEMP_MAX_VALID : ℚ := 85.0

def HUM_MIN_VALID : ℚ := 0.0

def HUM_MAX_VALID : ℚ := 100.0

-- ============================================================================
-- utils.h : pure calculations
-- ============================================================================

/-- `clamp` from utils.h: clamp value to a range. -/
def clamp (value minVal maxVal : ℚ) : ℚ :=
  if value < minVal then minVal
  else if value > maxVal then maxVal
  else value

/-- `isValidCalibrationFactor` from utils.h. -/
def isValidCalibrationFactor (factor : ℚ) : Bool :=
  MIN_CAL_FACTOR ≤ factor && factor ≤ MAX_CAL_FACTOR

/-- The Rothfusz regression polynomial computed inside `calculateHeatIndex`
(utils.h): `A=((c5*T)+c2)*T+c1`, `B=((c7*T)+c4)*T+c3`, `C=((c9*T)+c8)*T+c6`,
result `(C*R+B)*R+A`. -/
def rothfuszRegression (T R : ℚ) : ℚ :=
  let c1 : ℚ := -8.78469475556
  let c2 : ℚ := 1.61139411
  let c3 : ℚ := 2.33854883889
  let c4 : ℚ := -0.14611605
  let c5 : ℚ := -0.012308094
  let c6 : ℚ := -0.0164248277778
  let c7 : ℚ := 0.002211732
  let c8 : ℚ := 0.00072546
  let c9 : ℚ := -0.000003582
  let A := ((c5 * T) + c2) * T + c1
  let B := ((c7 * T) + c4) * T + c3
  let C := ((c9 * T) + c8) * T + c6
  (C * R + B) * R + A

/-- `calculateHeatIndex` from utils.h: identity below 20 °C, full Rothfusz
regression at or above 26.7 °C, linear blend in between. -/
def calculateHeatIndex (T R : ℚ) : ℚ :=
  if T < 20 then T
  else
    let fullHeatIndex := rothfuszRegression T R
    if 26.7 ≤ T then fullHeatIndex
    else
      let blend := (T - 20) / (26.7 - 20)
      T * (1 - blend) + fullHeatIndex * blend

/-- The piecewise humidity factor computed inside `applyEPAHumidityCorrection`
(utils.h). -/
def epaHumidityFactor (humidity : ℚ) : ℚ :=
  if humidity ≤ 30 then 1.0
  else if humidity ≤ 50 then 1.0 + 0.005 * (humidity - 30)
  else if humidity ≤ 70 then 1.1 + 0.01 * (humidity - 50)
  else if humidity ≤ 90 then 1.3 + 0.02 * (humidity - 70)
  else 1.7 + 0.03 * (humidity - 90)

/-- `applyEPAHumidityCorrection` from utils.h: divide the raw PM value by the
piecewise humidity factor. -/
def applyEPAHumidityCorrection (pmValue humidity : ℚ) : ℚ :=
  pmValue / epaHumidityFactor humidity

-- ============================================================================
-- Helper lemmas for C6 (continuity of the heat index)
-- ============================================================================

theorem rothfusz_continuous (R : ℚ) : Continuous fun T : ℚ => rothfuszRegression T R := by
  unfold rothfuszRegression
  simp only
  fun_prop

theorem heatIndex_blend_continuous (R : ℚ) :
    Continuous fun T : ℚ =>
      T * (1 - (T - 20) / (26.7 - 20)) + rothfuszRegression T R * ((T - 20) / (26.7 - 20)) := by
  have hb : Continuous fun T : ℚ => (T - 20) / (26.7 - 20) :=
    (continuous_id.sub continuous_const).div_const _
  exact ((continuous_id.mul (continuous_const.sub hb)).add
    ((rothfusz_continuous R).mul hb))

theorem heatIndex_continuous (R : ℚ) : Continuous fun T : ℚ => calculateHeatIndex T R := by
  unfold calculateHeatIndex
  simp only
  apply Continuous.if
  · intro a ha
    have h20 : a = 20 := by
      have : frontier {x : ℚ | x < 20} = {20} := by
        have := frontier_Iio (a := (20 : ℚ))
        simpa [Set.Iio] using this
      rw [this] at ha
      simpa using ha
    subst h20
    have h1 : ¬((26.7 : ℚ) ≤ 20) := by norm_num
    rw [if_neg h1]
    norm_num
  · exact continuous_id
  · apply Continuous.if
    · intro a ha
      have h267 : a = (26.7 : ℚ) := by
        have : frontier {x : ℚ | (26.7 : ℚ) ≤ x} = {(26.7 : ℚ)} := by
          have := frontier_Ici (a := (26.7 : ℚ))
          simpa [Set.Ici] using this
        rw [this] at ha
        simpa using ha
      subst h267
      have hnz : ((26.7 : ℚ) - 20) ≠ 0 := by norm_num
      field_simp
    · exact rothfusz_continuous R
    · exact heatIndex_blend_continuous R

-- ============================================================================
-- C6 : heat index piecewise structure and continuity
-- ============================================================================

/-- Claim C6: `calculateHeatIndex` returns `T` unchanged for `T < 20`, the
full Rothfusz regression for `T ≥ 26.7`, and for `20 ≤ T < 26.7` the linear
blend of `T` and the Rothfusz value with fraction `(T−20)/(26.7−20)`; the
resulting function of `T` is continuous (in particular at both boundary
temperatures 20 and 26.7). -/
theorem heatIndex_piecewise_and_continuous :
    (∀ T R : ℚ, T < 20 → calculateHeatIndex T R = T) ∧
    (∀ T R : ℚ, 26.7 ≤ T → calculateHeatIndex T R = rothfuszRegression T R) ∧
    (∀ T R : ℚ, 20 ≤ T → T < 26.7 →
      calculateHeatIndex T R =
        T * (1 - (T - 20) / (26.7 - 20)) +
          rothfuszRegression T R * ((T - 20) / (26.7 - 20))) ∧
    (∀ R : ℚ, ContinuousAt (fun T : ℚ => calculateHeatIndex T R) 20 ∧
      ContinuousAt (fun T : ℚ => calculateHeatIndex T R) 26.7) := by
  refine ⟨?_, ?_, ?_, ?_⟩
  · intro T R h
    simp [calculateHeatIndex, if_pos h]
  · intro T R h
    have h1 : ¬(T < 20) := by linarith [h]
    simp [calculateHeatIndex, if_neg h1, if_pos h]
  · intro T R h1 h2
    have h1' : ¬(T < 20) := by linarith
    have h2' : ¬((26.7 : ℚ) ≤ T) := by linarith
    simp [calculateHeatIndex, if_neg h1', if_neg h2']
  · intro R
    exact ⟨(heatIndex_continuous R).continuousAt, (heatIndex_continuous R).continuousAt⟩

/-- Witness for C6 at concrete inputs. -/
theorem heatIndex_piecewise_and_continuous_witness :
    ((10 : ℚ) < 20 ∧ calculateHeatIndex 10 50 = 10) ∧
    ((26.7 : ℚ) ≤ 27 ∧ calculateHeatIndex 27 50 = rothfuszRegression 27 50) :=
  ⟨⟨by decide, heatIndex_piecewise_and_continuous.1 10 50 (by decide)⟩,
   ⟨by norm_num, heatIndex_piecewise_and_continuous.2.1 27 50 (by norm_num)⟩⟩

-- ============================================================================
-- C7 : EPA humidity correction factor
-- ============================================================================

/-- Claim C7: the humidity-correction divisor is the stated piecewise-linear
function of relative humidity, it equals exactly 1 whenever RH ≤ 30, and it
is monotonically non-decreasing in RH. -/
theorem epaHumidityFactor_spec :
    (∀ pm h : ℚ, applyEPAHumidityCorrection pm h = pm / epaHumidityFactor h) ∧
    (∀ h : ℚ, h ≤ 30 → epaHumidityFactor h = 1) ∧
    (∀ h : ℚ, 30 < h → h ≤ 50 → epaHumidityFactor h = 1 + 0.005 * (h - 30)) ∧
    (∀ h : ℚ, 50 < h → h ≤ 70 → epaHumidityFactor h = 1.1 + 0.01 * (h - 50)) ∧
    (∀ h : ℚ, 70 < h → h ≤ 90 → epaHumidityFactor h = 1.3 + 0.02 * (h - 70)) ∧
    (∀ h : ℚ, 90 < h → epaHumidityFactor h = 1.7 + 0.03 * (h - 90)) ∧
    (∀ h1 h2 : ℚ, h1 ≤ h2 → epaHumidityFactor h1 ≤ epaHumidityFactor h2) := by
  refine ⟨fun pm h => rfl, ?_, ?_, ?_, ?_, ?_, ?_⟩
  · intro h hh
    simp only [epaHumidityFactor, if_pos hh]
    norm_num
  · intro h h1 h2
    have h1' : ¬(h ≤ 30) := by linarith
    simp only [epaHumidityFactor, if_neg h1', if_pos h2]
    norm_num
  · intro h h1 h2
    have ha : ¬(h ≤ 30) := by linarith
    have hb : ¬(h ≤ 50) := by linarith
    simp [epaHumidityFactor, if_neg ha, if_neg hb, if_pos h2]
  · intro h h1 h2
    have ha : ¬(h ≤ 30) := by linarith
    have hb : ¬(h ≤ 50) := by linarith
    have hc : ¬(h ≤ 70) := by linarith
    simp [epaHumidityFactor, if_neg ha, if_neg hb, if_neg hc, if_pos h2]
  · intro h h1
    have ha : ¬(h ≤ 30) := by linarith
    have hb : ¬(h ≤ 50) := by linarith
    have hc : ¬(h ≤ 70) := by linarith
    have hd : ¬(h ≤ 90) := by linarith
    simp [epaHumidityFactor, if_neg ha, if_neg hb, if_neg hc, if_neg hd]
  · intro h1 h2 hle
    unfold epaHumidityFactor
    split_ifs <;> linarith

/-- Witness for C7 at concrete inputs. -/
theorem epaHumidityFactor_spec_witness :
    ((20 : ℚ) ≤ 30 ∧ epaHumidityFactor 20 = 1) ∧
    ((40 : ℚ) ≤ 80 ∧ epaHumidityFactor 40 ≤ epaHumidityFactor 80) :=
  ⟨⟨by decide, epaHumidityFactor_spec.2.1 20 (by decide)⟩,
   ⟨by decide, epaHumidityFactor_spec.2.2.2.2.2.2 40 80 (by decide)⟩⟩

-- ============================================================================
-- types.h : sensor status
-- ============================================================================

/-- `SensorStatus` from types.h. -/
inductive SensorStatus
  | OK
  | INITIALIZING
  | OFFLINE
  | FAN_STUCK
  | ZERO_DATA
  | ERROR
deriving DecidableEq, Repr

/-- Health-tracking state shared by both sensor read routines: the
`...SensorOnline` flag, the `...SensorRetry` counter and the
`SensorStatus` variable. -/
structure SensorHealth where
  online : Bool
  retry : Nat
  status : SensorStatus
deriving DecidableEq, Repr

-- ============================================================================
-- sensors.h : readPMSSensor health logic (C4)
-- ============================================================================

/-- Result of one `readPMSSensor` call (sensors.h): the updated health state,
whether the three PM moving-average filters were reset, and whether
`initPMS()` was invoked. -/
structure PmsReadResult where
  health : SensorHealth
  filtersReset : Bool
  reinitialized : Bool
deriving DecidableEq, Repr

/-- The health/counter logic of `readPMSSensor` (sensors.h): on a successful
`readUntil` the retry counter is zeroed and an offline sensor comes back
online with status OK; on failure while online the counter is incremented
and once it exceeds `SENSOR_RETRIES_OFFLINE` the sensor goes offline, the
filters are reset and the driver is re-initialized; on failure while already
offline only `initPMS()` is called.  The data-mapping on success does not
affect health and is omitted here. -/
def readPMSSensorStep (success : Bool) (h : SensorHealth) : PmsReadResult :=
  if success then
    let h1 : SensorHealth := { h with retry := 0 }
    let h2 := if h1.online = false then
                { h1 with online := true, status := SensorStatus.OK }
              else h1
    { health := h2, filtersReset := false, reinitialized := false }
  else
    if h.online then
      let r := h.retry + 1
      if r > SENSOR_RETRIES_OFFLINE then
        { health := { online := false, retry := r, status := SensorStatus.OFFLINE },
          filtersReset := true, reinitialized := true }
      else
        { health := { h with retry := r }, filtersReset := false, reinitialized := false }
    else
      { health := h, filtersReset := false, reinitialized := true }

/-- Iterated failing reads, starting from a given health state. -/
def afterFailures : Nat → SensorHealth → SensorHealth
  | 0, h => h
  | n + 1, h => (readPMSSensorStep false (afterFailures n h)).health

/-- Counterexample for C4: starting from a fresh online state, after exactly
3 consecutive read failures the sensor is still online — the code only
transitions to Offline when the failure counter exceeds
`SENSOR_RETRIES_OFFLINE = 3`, i.e. on the 4th consecutive failure. -/
theorem pms_not_offline_after_three_failures :
    (afterFailures 3 { online := true, retry := 0, status := SensorStatus.OK }).online = true ∧
    (afterFailures 4 { online := true, retry := 0, status := SensorStatus.OK }).online = false := by
  decide

/-- Claim C4 (amended): an online sensor transitions to Offline exactly when
the failure counter exceeds 3, i.e. on the 4th consecutive failure; on that
transition the filters are reset and the driver re-initialized, and a single
subsequent successful read transitions the sensor back to OK with the
counter zeroed. -/
theorem pms_offline_transition_spec :
    (∀ n : Nat, n ≤ 3 →
      (afterFailures n { online := true, retry := 0, status := SensorStatus.OK }).online = true) ∧
    (∀ h : SensorHealth, h.online = true → h.retry = 3 →
      readPMSSensorStep false h =
        { health := { online := false, retry := 4, status := SensorStatus.OFFLINE },
          filtersReset := true, reinitialized := true }) ∧
    (∀ h : SensorHealth, h.retry ≤ 2 →
      (readPMSSensorStep false h).health.online = h.online ∧
      (readPMSSensorStep false h).filtersReset = false) ∧
    (∀ h : SensorHealth, h.online = false →
      (readPMSSensorStep true h).health =
        { online := true, retry := 0, status := SensorStatus.OK }) := by
  refine ⟨?_, ?_, ?_, ?_⟩
  · intro n hn
    interval_cases n <;> decide
  · intro h ho hr
    obtain ⟨o, r, st⟩ := h
    simp only at ho hr
    subst ho hr
    simp [readPMSSensorStep, SENSOR_RETRIES_OFFLINE]
  · intro h hr
    obtain ⟨o, r, st⟩ := h
    simp only at hr
    have hlt : ¬(r + 1 > SENSOR_RETRIES_OFFLINE) := by
      simp only [SENSOR_RETRIES_OFFLINE]
      omega
    cases o <;> simp [readPMSSensorStep, hlt]
  · intro h ho
    obtain ⟨o, r, st⟩ := h
    simp only at ho
    subst ho
    simp [readPMSSensorStep]

/-- Witness for C4 (amended) at concrete inputs. -/
theorem pms_offline_transition_spec_witness :
    ((2 : Nat) ≤ 3 ∧
      (afterFailures 2 { online := true, retry := 0, status := SensorStatus.OK }).online = true) ∧
    (readPMSSensorStep false { online := true, retry := 3, status := SensorStatus.OK } =
      { health := { online := false, retry := 4, status := SensorStatus.OFFLINE },
        filtersReset := true, reinitialized := true }) ∧
    ((readPMSSensorStep true { online := false, retry := 4, status := SensorStatus.OFFLINE }).health =
      { online := true, retry := 0, status := SensorStatus.OK }) :=
  ⟨⟨by decide, pms_offline_transition_spec.1 2 (by decide)⟩,
   pms_offline_transition_spec.2.1 _ (by decide) (by decide),
   pms_offline_transition_spec.2.2.2 _ (by decide)⟩

-- ============================================================================
-- sensors.h : readBMESensor validation logic (C2)
-- ============================================================================

/-- `Calibration` from types.h. -/
structure Calibration where
  pm25Factor : ℚ
  pm10Factor : ℚ
  tempOffset : ℚ
  humOffset : ℚ
deriving DecidableEq, Repr

/-- The compensated humidity computed at the top of `readBMESensor`
(sensors.h): the raw humidity scaled by
`exp(γ·β·(T_raw−T)/((γ+T_raw)·(γ+T)))` (with `T = T_raw + tempOffset`),
plus the humidity calibration offset.  The libm exponential is external to
the repository and is passed as the parameter `expQ`. -/
def bmeCompensatedHumidity (expQ : ℚ → ℚ) (cal : Calibration)
    (temperatureRaw humidityRaw : ℚ) : ℚ :=
  let temperature := temperatureRaw + cal.tempOffset
  let humidity := humidityRaw *
    expQ (MAGNUS_GAMMA * MAGNUS_BETA * (temperatureRaw - temperature) /
      (MAGNUS_GAMMA + temperatureRaw) / (MAGNUS_GAMMA + temperature))
  humidity + cal.humOffset

/-- Result of one `readBMESensor` call (sensors.h): updated health, the
clamped humidity and the offset temperature accepted for filtering when
the reading passes validation (the ×100 fixed-point scaling and the
moving averages applied to them are omitted), whether the filters were
reset and whether `initBME()` was invoked. -/
structure BmeReadResult where
  health : SensorHealth
  storedHumidity : Option ℚ
  storedTemperature : Option ℚ
  filtersReset : Bool
  reinitialized : Bool
deriving DecidableEq, Repr

/-- The validation/clamp/health core of `readBMESensor` (sensors.h): the
reading is accepted only when the raw temperature lies strictly inside
`(TEMP_MIN_VALID, TEMP_MAX_VALID)` and the compensated humidity lies inside
`[HUM_MIN_VALID, HUM_MAX_VALID]`; on acceptance the humidity is clamped to
`[0,100]` and the retry counter zeroed, otherwise the same failure
escalation as for the particle sensor applies.  The pressure conversion,
moving averages and derived quantities do not affect acceptance or health
and are omitted. -/
def readBMESensor (expQ : ℚ → ℚ) (cal : Calibration)
    (temperatureRaw humidityRaw : ℚ) (h : SensorHealth) : BmeReadResult :=
  let temperature := temperatureRaw + cal.tempOffset
  let humidity := bmeCompensatedHumidity expQ cal temperatureRaw humidityRaw
  if TEMP_MIN_VALID < temperatureRaw ∧ temperatureRaw < TEMP_MAX_VALID ∧
     HUM_MIN_VALID ≤ humidity ∧ humidity ≤ HUM_MAX_VALID then
    let humidity := clamp humidity 0 100
    let h1 : SensorHealth := { h with retry := 0 }
    let h2 := if h1.online = false then
                { h1 with online := true, status := SensorStatus.OK }
              else h1
    { health := h2, storedHumidity := some humidity,
      storedTemperature := some temperature,
      filtersReset := false, reinitialized := false }
  else
    if h.online then
      let r := h.retry + 1
      if r > SENSOR_RETRIES_OFFLINE then
        { health := { online := false, retry := r, status := SensorStatus.OFFLINE },
          storedHumidity := none, storedTemperature := none,
          filtersReset := true, reinitialized := true }
      else
        { health := { h with retry := r }, storedHumidity := none,
          storedTemperature := none, filtersReset := false, reinitialized := false }
    else
      { health := h, storedHumidity := none, storedTemperature := none,
        filtersReset := false, reinitialized := true }

/-- Claim C2 evaluated at the failing input (the code contradicts the claim
here): raw temperature 25 °C is inside the validity bounds and the
temperature-compensated relative humidity computes to exactly 104 %
(raw humidity 98 % scaled by a compensation factor of 52/49, default
temperature offset −2).  The code rejects the reading — because the
validity check `humidity <= HUM_MAX_VALID` uses the bound 100 — and
increments the failure counter, instead of accepting it, clamping the
stored humidity to 100 and leaving the counter at 0 as the claim states. -/
theorem bme_rejects_humidity_104 (expQ : ℚ → ℚ)
    (hexp : bmeCompensatedHumidity expQ
      { pm25Factor := 1, pm10Factor := 1, tempOffset := -2, humOffset := 0 } 25 98 = 104) :
    readBMESensor expQ
        { pm25Factor := 1, pm10Factor := 1, tempOffset := -2, humOffset := 0 }
        25 98 { online := true, retry := 0, status := SensorStatus.OK } =
      { health := { online := true, retry := 1, status := SensorStatus.OK },
        storedHumidity := none, storedTemperature := none,
        filtersReset := false, reinitialized := false } := by
  have hcond : ¬(TEMP_MIN_VALID < (25 : ℚ) ∧ (25 : ℚ) < TEMP_MAX_VALID ∧
      HUM_MIN_VALID ≤ bmeCompensatedHumidity expQ
        { pm25Factor := 1, pm10Factor := 1, tempOffset := -2, humOffset := 0 } 25 98 ∧
      bmeCompensatedHumidity expQ
        { pm25Factor := 1, pm10Factor := 1, tempOffset := -2, humOffset := 0 } 25 98 ≤
        HUM_MAX_VALID) := by
    rw [hexp]
    norm_num [HUM_MAX_VALID]
  simp only [readBMESensor, hcond, if_false]
  norm_num [SENSOR_RETRIES_OFFLINE]

/-- Witness for C2: a concrete exponential oracle realizing the failing
input (constant 52/49, the compensation factor at which 98 % raw humidity
becomes 104 %). -/
theorem bme_rejects_humidity_104_witness :
    bmeCompensatedHumidity (fun _ => 52 / 49)
        { pm25Factor := 1, pm10Factor := 1, tempOffset := -2, humOffset := 0 } 25 98 = 104 ∧
    readBMESensor (fun _ => 52 / 49)
        { pm25Factor := 1, pm10Factor := 1, tempOffset := -2, humOffset := 0 }
        25 98 { online := true, retry := 0, status := SensorStatus.OK } =
      { health := { online := true, retry := 1, status := SensorStatus.OK },
        storedHumidity := none, storedTemperature := none,
        filtersReset := false, reinitialized := false } :=
  ⟨by norm_num [bmeCompensatedHumidity],
   bme_rejects_humidity_104 (fun _ => 52 / 49) (by norm_num [bmeCompensatedHumidity])⟩

-- ============================================================================
-- sensors.h : checkFanStatus (C8)
-- ============================================================================

/-- State used by the fan-stuck classifier (main sketch globals):
`prevPm1/prevPm25/prevPm10`, `stuckCounter`, `zeroCounter`. -/
structure FanState where
  prevPm1 : Int
  prevPm25 : Int
  prevPm10 : Int
  stuckCounter : Nat
  zeroCounter : Nat
deriving DecidableEq, Repr

/-- Result of one `checkFanStatus` call: the updated state, the returned
`SensorStatus` classification and the `sensorStatusText` string. -/
structure FanCheckResult where
  state : FanState
  status : SensorStatus
  statusText : String
deriving DecidableEq, Repr

/-- `checkFanStatus` from sensors.h: increment the stuck counter when all
three post-filter PM values equal the previous cycle's values (else reset to
0), increment the zero counter when all three are zero (else reset to 0),
store the current values as the previous ones, then classify — the
stuck-counter check comes first. -/
def checkFanStatus (st : FanState) (pm1 pm25 pm10 : Int) : FanCheckResult :=
  let stuck := if pm1 = st.prevPm1 ∧ pm25 = st.prevPm25 ∧ pm10 = st.prevPm10 then
                 st.stuckCounter + 1
               else 0
  let zeroC := if pm1 = 0 ∧ pm25 = 0 ∧ pm10 = 0 then st.zeroCounter + 1 else 0
  let st' : FanState := { prevPm1 := pm1, prevPm25 := pm25, prevPm10 := pm10,
                          stuckCounter := stuck, zeroCounter := zeroC }
  if stuck ≥ FAN_STUCK_THRESHOLD then
    { state := st', status := SensorStatus.FAN_STUCK, statusText := "Fan Stuck / Error" }
  else if zeroC ≥ ZERO_DATA_THRESHOLD then
    { state := st', status := SensorStatus.ZERO_DATA, statusText := "Zero Data Error" }
  else
    { state := st', status := SensorStatus.OK, statusText := "OK" }

/-- Claim C8: the stuck counter increments exactly when the three PM values
equal the previous cycle's values and otherwise resets to 0; the zero
counter increments exactly when all three are zero and otherwise resets to
0; the classification is Fan-Stuck when the (new) stuck counter reaches 5,
Zero-Data when the (new) zero counter reaches 5, and Fan-Stuck takes
precedence when both hold. -/
theorem checkFanStatus_spec :
    ∀ (st : FanState) (pm1 pm25 pm10 : Int),
      ((checkFanStatus st pm1 pm25 pm10).state.stuckCounter =
        if pm1 = st.prevPm1 ∧ pm25 = st.prevPm25 ∧ pm10 = st.prevPm10 then
          st.stuckCounter + 1
        else 0) ∧
      ((checkFanStatus st pm1 pm25 pm10).state.zeroCounter =
        if pm1 = 0 ∧ pm25 = 0 ∧ pm10 = 0 then st.zeroCounter + 1 else 0) ∧
      ((checkFanStatus st pm1 pm25 pm10).status =
        if (checkFanStatus st pm1 pm25 pm10).state.stuckCounter ≥ 5 then
          SensorStatus.FAN_STUCK
        else if (checkFanStatus st pm1 pm25 pm10).state.zeroCounter ≥ 5 then
          SensorStatus.ZERO_DATA
        else SensorStatus.OK) ∧
      ((checkFanStatus st pm1 pm25 pm10).state.stuckCounter ≥ 5 →
        (checkFanStatus st pm1 pm25 pm10).state.zeroCounter ≥ 5 →
        (checkFanStatus st pm1 pm25 pm10).status = SensorStatus.FAN_STUCK) := by
  intro st pm1 pm25 pm10
  by_cases h1 : pm1 = st.prevPm1 ∧ pm25 = st.prevPm25 ∧ pm10 = st.prevPm10 <;>
  by_cases h2 : pm1 = 0 ∧ pm25 = 0 ∧ pm10 = 0 <;>
  by_cases h3 : st.stuckCounter + 1 ≥ 5 <;>
  by_cases h4 : st.zeroCounter + 1 ≥ 5 <;>
  simp [checkFanStatus, FAN_STUCK_THRESHOLD, ZERO_DATA_THRESHOLD, h1, h2, h3, h4] <;>
  split_ifs <;> simp_all

/-- Witness for C8: with previous values (0,0,0) and both counters at 4, a
(0,0,0) reading drives both counters to 5 simultaneously and Fan-Stuck is
the reported classification. -/
theorem checkFanStatus_spec_witness :
    ((checkFanStatus
        { prevPm1 := 0, prevPm25 := 0, prevPm10 := 0, stuckCounter := 4, zeroCounter := 4 }
        0 0 0).state.stuckCounter ≥ 5) ∧
    ((checkFanStatus
        { prevPm1 := 0, prevPm25 := 0, prevPm10 := 0, stuckCounter := 4, zeroCounter := 4 }
        0 0 0).state.zeroCounter ≥ 5) ∧
    ((checkFanStatus
        { prevPm1 := 0, prevPm25 := 0, prevPm10 := 0, stuckCounter := 4, zeroCounter := 4 }
        0 0 0).status = SensorStatus.FAN_STUCK) :=
  ⟨by decide, by decide,
   (checkFanStatus_spec
      { prevPm1 := 0, prevPm25 := 0, prevPm10 := 0, stuckCounter := 4, zeroCounter := 4 }
      0 0 0).2.2.2 (by decide) (by decide)⟩

-- ============================================================================
-- main sketch : changeInterval (C10)
-- ============================================================================

/-- Result of a `changeInterval` call (main sketch): the `uint8_t`
`dataPublishInterval`, the `pmsNoSleep` flag, and whether `setPMSPower(true)`
was invoked. -/
structure IntervalResult where
  dataPublishInterval : Nat
  pmsNoSleep : Bool
  pmsPoweredOn : Bool
deriving DecidableEq, Repr

/-- `changeInterval` from the main sketch.  The `int` argument is stored
into the `uint8_t` interval variable; the C++ int-to-uint8 conversion is
modelled by `% 256` (it never truncates on the reachable branches, whose
values all lie in `[1,60]`). -/
def changeInterval (interval : Int) : IntervalResult :=
  if 5 < interval ∧ interval ≤ 60 then
    { dataPublishInterval := interval.toNat % 256, pmsNoSleep := false, pmsPoweredOn := false }
  else if interval ≤ 5 then
    { dataPublishInterval := if interval ≤ 1 then 1 else interval.toNat % 256,
      pmsNoSleep := true, pmsPoweredOn := true }
  else
    { dataPublishInterval := 60, pmsNoSleep := false, pmsPoweredOn := false }

/-- Claim C10: the resulting publish interval always lies in [1,60];
inputs in (5,60] are taken as-is; inputs at most 5 are clamped below at 1
and force continuous (no-sleep) operation with the sensor powered on;
inputs above 60 are clamped to 60 with duty-cycling re-enabled. -/
theorem changeInterval_spec :
    ∀ i : Int,
      (1 ≤ (changeInterval i).dataPublishInterval ∧
        (changeInterval i).dataPublishInterval ≤ 60) ∧
      (5 < i → i ≤ 60 → changeInterval i =
        { dataPublishInterval := i.toNat, pmsNoSleep := false, pmsPoweredOn := false }) ∧
      (i ≤ 5 → changeInterval i =
        { dataPublishInterval := if i ≤ 1 then 1 else i.toNat,
          pmsNoSleep := true, pmsPoweredOn := true }) ∧
      (60 < i → changeInterval i =
        { dataPublishInterval := 60, pmsNoSleep := false, pmsPoweredOn := false }) := by
  intro i
  refine ⟨?_, ?_, ?_, ?_⟩
  · unfold changeInterval
    split_ifs <;> simp <;> omega
  · intro h1 h2
    have : 5 < i ∧ i ≤ 60 := ⟨h1, h2⟩
    simp only [changeInterval, if_pos this, IntervalResult.mk.injEq]
    refine ⟨?_, trivial, trivial⟩
    omega
  · intro h1
    have hno : ¬(5 < i ∧ i ≤ 60) := by omega
    simp only [changeInterval, if_neg hno, if_pos h1, IntervalResult.mk.injEq]
    refine ⟨?_, trivial, trivial⟩
    split_ifs <;> omega
  · intro h1
    have hno : ¬(5 < i ∧ i ≤ 60) := by omega
    have hno2 : ¬(i ≤ 5) := by omega
    simp only [changeInterval, if_neg hno, if_neg hno2]

/-- Witness for C10 at concrete inputs. -/
theorem changeInterval_spec_witness :
    ((0 : Int) ≤ 5 ∧ changeInterval 0 =
      { dataPublishInterval := 1, pmsNoSleep := true, pmsPoweredOn := true }) ∧
    ((60 : Int) < 90 ∧ changeInterval 90 =
      { dataPublishInterval := 60, pmsNoSleep := false, pmsPoweredOn := false }) :=
  ⟨⟨by decide, by
      have h := (changeInterval_spec 0).2.2.1 (by decide)
      simpa using h⟩,
   ⟨by decide, (changeInterval_spec 90).2.2.2 (by decide)⟩⟩

-- ============================================================================
-- calibration updates : mqttCallback vs restoreSettings (C3)
-- ============================================================================

/-- The `calibration` command branch of `mqttCallback` (main sketch):
each factor present in the JSON document is stored into the calibration
structure directly, with no range validation. -/
def mqttCalibrationCommand (pm25V pm10V tempV humV : Option ℚ)
    (cal : Calibration) : Calibration :=
  let cal := match pm25V with
             | some v => { cal with pm25Factor := v }
             | none => cal
  let cal := match pm10V with
             | some v => { cal with pm10Factor := v }
             | none => cal
  let cal := match tempV with
             | some v => { cal with tempOffset := v }
             | none => cal
  match humV with
  | some v => { cal with humOffset := v }
  | none => cal

/-- The calibration part of `restoreSettings` (storage.h): a stored factor
is applied only when `isValidCalibrationFactor` accepts it; otherwise the
current (default) factor is retained. -/
def restoreCalibration (pm25CalFactor pm10CalFactor : ℚ)
    (cal : Calibration) : Calibration :=
  let cal := if isValidCalibrationFactor pm25CalFactor then
               { cal with pm25Factor := pm25CalFactor }
             else cal
  if isValidCalibrationFactor pm10CalFactor then
    { cal with pm10Factor := pm10CalFactor }
  else cal

/-- Counterexample for C3: via the remote configuration command, the
out-of-range factor 50 (outside [0.1, 10]) is stored rather than rejected —
the previous factor 1 is not retained. -/
theorem mqtt_calibration_accepts_out_of_range :
    isValidCalibrationFactor 50 = false ∧
    (mqttCalibrationCommand (some 50) none none none
        { pm25Factor := 1, pm10Factor := 1, tempOffset := 0, humOffset := 0 }).pm25Factor
      = 50 := by
  constructor
  · norm_num [isValidCalibrationFactor, MIN_CAL_FACTOR, MAX_CAL_FACTOR]
  · rfl

/-- Claim C3 (amended): only on restore from persistent settings is a
proposed PM2.5/PM10 factor outside [0.1, 10.0] rejected with the previously
stored factor retained (and no error raised); the remote configuration
command stores any proposed factor unchecked. -/
theorem calibration_validation_only_on_restore :
    (∀ s25 s10 : ℚ, ∀ cal : Calibration, isValidCalibrationFactor s25 = false →
      (restoreCalibration s25 s10 cal).pm25Factor = cal.pm25Factor) ∧
    (∀ s25 s10 : ℚ, ∀ cal : Calibration, isValidCalibrationFactor s10 = false →
      (restoreCalibration s25 s10 cal).pm10Factor = cal.pm10Factor) ∧
    (∀ s25 s10 : ℚ, ∀ cal : Calibration, isValidCalibrationFactor s25 = true →
      (restoreCalibration s25 s10 cal).pm25Factor = s25) ∧
    (∀ s25 s10 : ℚ, ∀ cal : Calibration, isValidCalibrationFactor s10 = true →
      (restoreCalibration s25 s10 cal).pm10Factor = s10) ∧
    (∀ v : ℚ, ∀ cal : Calibration,
      (mqttCalibrationCommand (some v) (some v) none none cal).pm25Factor = v ∧
      (mqttCalibrationCommand (some v) (some v) none none cal).pm10Factor = v) := by
  refine ⟨?_, ?_, ?_, ?_, ?_⟩
  · intro s25 s10 cal h
    simp [restoreCalibration, h]
    split_ifs <;> simp
  · intro s25 s10 cal h
    simp [restoreCalibration, h]
    split_ifs <;> simp
  · intro s25 s10 cal h
    simp [restoreCalibration, h]
    split_ifs <;> simp
  · intro s25 s10 cal h
    simp [restoreCalibration, h]
  · intro v cal
    exact ⟨rfl, rfl⟩

/-- Witness for C3 (amended) at concrete inputs. -/
theorem calibration_validation_only_on_restore_witness :
    isValidCalibrationFactor 50 = false ∧
    (restoreCalibration 50 1
        { pm25Factor := 1, pm10Factor := 1, tempOffset := 0, humOffset := 0 }).pm25Factor
      = 1 := by
  have hv : isValidCalibrationFactor 50 = false := by
    norm_num [isValidCalibrationFactor, MIN_CAL_FACTOR, MAX_CAL_FACTOR]
  exact ⟨hv, calibration_validation_only_on_restore.1 50 1
    { pm25Factor := 1, pm10Factor := 1, tempOffset := 0, humOffset := 0 } hv⟩

-- ============================================================================
-- alarms.h : checkAlarms / initAlarms (C9)
-- ============================================================================

/-- `AlarmState` from types.h (the fields used by `checkAlarms`). -/
structure AlarmState where
  triggered : Bool
  lastTriggerTime : Nat
  cooldownMs : Nat
  pm25Threshold : Int
  pm10Threshold : Int
deriving DecidableEq, Repr

/-- Result of one `checkAlarms` call (alarms.h): the updated alarm state,
the boolean return value, and the reason string handed to the MQTT publish
callback when an alarm fires (the JSON envelope around the reason is
serialization and is omitted). -/
structure AlarmCheckResult where
  state : AlarmState
  fired : Bool
  event : Option String
deriving DecidableEq, Repr

/-- Reason string built by `checkAlarms`, naming each exceeded threshold
with its measured value (written with the same concatenation order as the
source). -/
def alarmReasonFor (pm25 pm10 t25 t10 : Int) : String :=
  if pm25 > t25 ∧ pm10 > t10 then
    ("PM2.5 HIGH: " ++ toString pm25 ++ " µg/m³" ++ ", ") ++
      "PM10 HIGH: " ++ toString pm10 ++ " µg/m³"
  else if pm25 > t25 then
    "PM2.5 HIGH: " ++ toString pm25 ++ " µg/m³"
  else
    "PM10 HIGH: " ++ toString pm10 ++ " µg/m³"

/-- `checkAlarms` from alarms.h: disabled ⇒ no evaluation; while Triggered
and within the cooldown window ⇒ evaluation suppressed entirely; otherwise
a snapshot exceeding either PM threshold fires an alarm (state Triggered,
trigger time recorded, reason published), and a snapshot exceeding neither
threshold clears a previously Triggered state without publishing. -/
def checkAlarms (alarmEnabled : Bool) (st : AlarmState) (now : Nat)
    (pm25 pm10 : Int) : AlarmCheckResult :=
  if alarmEnabled = false then
    { state := st, fired := false, event := none }
  else if st.triggered ∧ now - st.lastTriggerTime < st.cooldownMs then
    { state := st, fired := false, event := none }
  else if pm25 > st.pm25Threshold ∨ pm10 > st.pm10Threshold then
    { state := { st with triggered := true, lastTriggerTime := now },
      fired := true,
      event := some (alarmReasonFor pm25 pm10 st.pm25Threshold st.pm10Threshold) }
  else if st.triggered then
    { state := { st with triggered := false }, fired := false, event := none }
  else
    { state := st, fired := false, event := none }

/-- `initAlarms` from alarms.h: default thresholds and cooldown (it also
sets the global `alarmEnabled` flag to true). -/
def initAlarms : AlarmState :=
  { triggered := false, lastTriggerTime := 0,
    cooldownMs := ALARM_COOLDOWN_MS,
    pm25Threshold := ALARM_PM25_THRESHOLD,
    pm10Threshold := ALARM_PM10_THRESHOLD }

/-- Claim C9: with the alarm enabled — a snapshot exceeding PM2.5 > 35 or
PM10 > 45 outside an active cooldown transitions the evaluator to Triggered,
records the trigger time and emits exactly one event naming each exceeded
threshold with its measured value; while Triggered and within the cooldown
(default 1 hour) evaluation is suppressed entirely (no event, no clearing);
after the cooldown a snapshot exceeding a threshold emits a new event, and
one exceeding neither transitions Triggered back to Clear without emitting
anything. -/
theorem checkAlarms_spec :
    (∀ (st : AlarmState) (now : Nat) (pm25 pm10 : Int),
      ¬(st.triggered = true ∧ now - st.lastTriggerTime < st.cooldownMs) →
      (pm25 > st.pm25Threshold ∨ pm10 > st.pm10Threshold) →
      checkAlarms true st now pm25 pm10 =
        { state := { st with triggered := true, lastTriggerTime := now },
          fired := true,
          event := some (alarmReasonFor pm25 pm10 st.pm25Threshold st.pm10Threshold) }) ∧
    (∀ (st : AlarmState) (now : Nat) (pm25 pm10 : Int),
      st.triggered = true → now - st.lastTriggerTime < st.cooldownMs →
      checkAlarms true st now pm25 pm10 = { state := st, fired := false, event := none }) ∧
    (∀ (st : AlarmState) (now : Nat) (pm25 pm10 : Int),
      st.triggered = true → ¬(now - st.lastTriggerTime < st.cooldownMs) →
      pm25 ≤ st.pm25Threshold → pm10 ≤ st.pm10Threshold →
      checkAlarms true st now pm25 pm10 =
        { state := { st with triggered := false }, fired := false, event := none }) ∧
    (initAlarms.cooldownMs = 3600000 ∧ initAlarms.pm25Threshold = 35 ∧
      initAlarms.pm10Threshold = 45 ∧ initAlarms.triggered = false) := by
  refine ⟨?_, ?_, ?_, ?_⟩
  · intro st now pm25 pm10 hcd hex
    simp only [checkAlarms, Bool.true_eq_false, if_false, if_neg hcd, if_pos hex]
  · intro st now pm25 pm10 ht hc
    simp only [checkAlarms, Bool.true_eq_false, if_false]
    rw [if_pos ⟨ht, hc⟩]
  · intro st now pm25 pm10 ht hc h25 h10
    have hcd : ¬(st.triggered = true ∧ now - st.lastTriggerTime < st.cooldownMs) := by
      intro h
      exact hc h.2
    have hex : ¬(pm25 > st.pm25Threshold ∨ pm10 > st.pm10Threshold) := by omega
    simp only [checkAlarms, Bool.true_eq_false, if_false, if_neg hcd, if_neg hex, if_pos ht]
  · exact ⟨rfl, rfl, rfl, rfl⟩

/-- Witness for C9, replaying the specified scenario with the default
(initAlarms) state: a first breach at PM2.5 = 40 fires one event; a second
breach 10 minutes later is suppressed; after 61 minutes a breach fires a
new event; and once past the cooldown a clean snapshot clears the alarm
silently. -/
theorem checkAlarms_spec_witness :
    (checkAlarms true initAlarms 0 40 0 =
      { state := { initAlarms with triggered := true, lastTriggerTime := 0 },
        fired := true,
        event := some (alarmReasonFor 40 0 initAlarms.pm25Threshold initAlarms.pm10Threshold) }) ∧
    (checkAlarms true { initAlarms with triggered := true, lastTriggerTime := 0 } 600000 40 0 =
      { state := { initAlarms with triggered := true, lastTriggerTime := 0 },
        fired := false, event := none }) ∧
    (checkAlarms true { initAlarms with triggered := true, lastTriggerTime := 0 } 3660000 40 0 =
      { state := { initAlarms with triggered := true, lastTriggerTime := 3660000 },
        fired := true,
        event := some (alarmReasonFor 40 0 initAlarms.pm25Threshold initAlarms.pm10Threshold) }) ∧
    (checkAlarms true { initAlarms with triggered := true, lastTriggerTime := 0 } 3660000 10 10 =
      { state := { initAlarms with triggered := false, lastTriggerTime := 0 },
        fired := false, event := none }) :=
  ⟨checkAlarms_spec.1 initAlarms 0 40 0 (by decide) (by decide),
   checkAlarms_spec.2.1 _ 600000 40 0 (by decide) (by decide),
   checkAlarms_spec.1 _ 3660000 40 0 (by decide) (by decide),
   checkAlarms_spec.2.2.1 _ 3660000 10 10 (by decide) (by decide) (by decide) (by decide)⟩

-- ============================================================================
-- PMS.h / PMS.cpp : the frame decoder (C1, C5)
-- ============================================================================

/-- `PMS::DATA` from PMS.h: the twelve 16-bit measurement fields. -/
structure PmsDATA where
  PM_SP_UG_1_0 : Nat
  PM_SP_UG_2_5 : Nat
  PM_SP_UG_10_0 : Nat
  PM_AE_UG_1_0 : Nat
  PM_AE_UG_2_5 : Nat
  PM_AE_UG_10_0 : Nat
  PM_RAW_0_3 : Nat
  PM_RAW_0_5 : Nat
  PM_RAW_1_0 : Nat
  PM_RAW_2_5 : Nat
  PM_RAW_5_0 : Nat
  PM_RAW_10_0 : Nat
deriving DecidableEq, Repr

/-- `PMS::STATUS` from PMS.h. -/
inductive PmsStatus
  | WAIT
  | OK
deriving DecidableEq, Repr

/-- `PMS::FRAME_TIMEOUT_MS` from PMS.h. -/
def FRAME_TIMEOUT_MS : Nat := 100

/-- Arduino `makeWord(high, low)`. -/
def makeWord (high low : Nat) : Nat := (high <<< 8) ||| low

/-- The private parser state of the `PMS` class (PMS.h): `_status`,
`_index` (`uint8_t`), `_frameLen`, `_checksum`, `_calculatedChecksum`
(`uint16_t`), the 28-byte `_payload` buffer (modelled as a function so that
single-slot writes are `Function.update`), `_lastByteTime`, and the decoded
`DATA` most recently written through `_data`. -/
structure PmsState where
  status : PmsStatus
  index : Nat
  frameLen : Nat
  checksum : Nat
  calculatedChecksum : Nat
  payload : Nat → Nat
  lastByteTime : Nat
  data : Option PmsDATA

/-- Parser state at construction: `_index = 0`, `_lastByteTime = 0`, status
`WAIT` (set by `read`/`readUntil` before polling). -/
def initPmsState : PmsState :=
  { status := PmsStatus.WAIT, index := 0, frameLen := 0, checksum := 0,
    calculatedChecksum := 0, payload := fun _ => 0, lastByteTime := 0,
    data := none }

/-- The switch statement of `PMS::loop` (PMS.cpp) on `_index`: sync bytes,
length field with mandatory value 28, payload accumulation, final checksum
comparison and data mapping.  `uint16_t` arithmetic carries explicit
`% 65536` reductions and the `uint8_t` index increments carry `% 256`. -/
def loopCore (s : PmsState) (ch : Nat) : PmsState :=
  if s.index = 0 then
    if ch ≠ 0x42 then s
    else { s with calculatedChecksum := ch, index := (s.index + 1) % 256 }
  else if s.index = 1 then
    if ch ≠ 0x4D then { s with index := 0 }
    else { s with calculatedChecksum := (s.calculatedChecksum + ch) % 65536,
                  index := (s.index + 1) % 256 }
  else if s.index = 2 then
    { s with calculatedChecksum := (s.calculatedChecksum + ch) % 65536,
             frameLen := (ch <<< 8) % 65536,
             index := (s.index + 1) % 256 }
  else if s.index = 3 then
    let fl := (s.frameLen ||| ch) % 65536
    let s2 := { s with frameLen := fl,
                       calculatedChecksum := (s.calculatedChecksum + ch) % 65536 }
    if fl ≠ 28 then { s2 with index := 0 }
    else { s2 with index := (s2.index + 1) % 256 }
  else
    if s.index = s.frameLen + 2 + 1 then
      let ck := makeWord (s.payload 26) ch % 65536
      let s2 := { s with checksum := ck }
      if s2.calculatedChecksum = ck then
        { s2 with status := PmsStatus.OK, index := 0,
                  data := some {
                    PM_SP_UG_1_0 := makeWord (s2.payload 0) (s2.payload 1),
                    PM_SP_UG_2_5 := makeWord (s2.payload 2) (s2.payload 3),
                    PM_SP_UG_10_0 := makeWord (s2.payload 4) (s2.payload 5),
                    PM_AE_UG_1_0 := makeWord (s2.payload 6) (s2.payload 7),
                    PM_AE_UG_2_5 := makeWord (s2.payload 8) (s2.payload 9),
                    PM_AE_UG_10_0 := makeWord (s2.payload 10) (s2.payload 11),
                    PM_RAW_0_3 := makeWord (s2.payload 12) (s2.payload 13),
                    PM_RAW_0_5 := makeWord (s2.payload 14) (s2.payload 15),
                    PM_RAW_1_0 := makeWord (s2.payload 16) (s2.payload 17),
                    PM_RAW_2_5 := makeWord (s2.payload 18) (s2.payload 19),
                    PM_RAW_5_0 := makeWord (s2.payload 20) (s2.payload 21),
                    PM_RAW_10_0 := makeWord (s2.payload 22) (s2.payload 23) } }
      else { s2 with index := 0 }
    else
      let s2 := if s.index < s.frameLen + 2 then
                  { s with calculatedChecksum := (s.calculatedChecksum + ch) % 65536 }
                else s
      let s3 := if s2.index - 4 < 28 then
                  { s2 with payload := Function.update s2.payload (s2.index - 4) ch }
                else s2
      { s3 with index := (s3.index + 1) % 256 }

/-- One invocation of `PMS::loop` with exactly one available byte: the
inter-byte timeout reset, the `_lastByteTime` update, then the switch
(`loopCore`). -/
def loopStep (s0 : PmsState) (now : Nat) (ch : Nat) : PmsState :=
  let s1 := if 0 < s0.index ∧ now - s0.lastByteTime > FRAME_TIMEOUT_MS then
              { s0 with index := 0 }
            else s0
  loopCore { s1 with lastByteTime := now } ch

/-- Drives `loopStep` over a timestamped byte stream the way the
`readUntil` polling loop consumes it: whenever a frame completes
(status becomes `OK`) the decoded `DATA` is collected and the status reset
to `WAIT` (as the next `read` call does) before the remaining bytes are
processed. -/
def runPMS (s : PmsState) : List (Nat × Nat) → PmsState × List PmsDATA
  | [] => (s, [])
  | (t, ch) :: rest =>
    let s' := loopStep s t ch
    if s'.status = PmsStatus.OK then
      let r := runPMS { s' with status := PmsStatus.WAIT } rest
      (r.1, (match s'.data with
             | some d => [d]
             | none => []) ++ r.2)
    else
      runPMS s' rest

/-- Stamp a byte list with a constant clock value 0 (no inter-byte gaps). -/
def stamp0 (bs : List Nat) : List (Nat × Nat) := bs.map fun b => (0, b)

/-- Frames decoded from a gap-free byte stream fed to a fresh parser. -/
def decodedFrames (bs : List Nat) : List PmsDATA :=
  (runPMS initPmsState (stamp0 bs)).2

/-- The 16-bit checksum of a frame with sync bytes, length field 28 and
data bytes `d 0 .. d 25`: the sum of all preceding frame bytes reduced to
16 bits. -/
def frameChecksum16 (d : Nat → Nat) : Nat :=
  (0x42 + 0x4D + 0x00 + 28 + ∑ i ∈ Finset.range 26, d i) % 65536

/-- A structurally complete frame: sync bytes 0x42 0x4D, big-endian length
field 28, the 26 data bytes `d 0 .. d 25`, and a transmitted 16-bit
checksum `hi,lo`. -/
def frameBytesWithCk (d : Nat → Nat) (hi lo : Nat) : List Nat :=
  [0x42, 0x4D, 0x00, 28] ++ (List.range 26).map d ++ [hi, lo]

/-- A complete frame whose transmitted checksum is correct. -/
def goodFrame (d : Nat → Nat) : List Nat :=
  frameBytesWithCk d (frameChecksum16 d / 256) (frameChecksum16 d % 256)

/-- The twelve big-endian payload words of a frame with data bytes `d`,
as the claim states them. -/
def expectedDATA (d : Nat → Nat) : PmsDATA :=
  { PM_SP_UG_1_0 := d 0 * 256 + d 1,
    PM_SP_UG_2_5 := d 2 * 256 + d 3,
    PM_SP_UG_10_0 := d 4 * 256 + d 5,
    PM_AE_UG_1_0 := d 6 * 256 + d 7,
    PM_AE_UG_2_5 := d 8 * 256 + d 9,
    PM_AE_UG_10_0 := d 10 * 256 + d 11,
    PM_RAW_0_3 := d 12 * 256 + d 13,
    PM_RAW_0_5 := d 14 * 256 + d 15,
    PM_RAW_1_0 := d 16 * 256 + d 17,
    PM_RAW_2_5 := d 18 * 256 + d 19,
    PM_RAW_5_0 := d 20 * 256 + d 21,
    PM_RAW_10_0 := d 22 * 256 + d 23 }

-- ============================================================================
-- Helper lemmas for the decoder proofs
-- ============================================================================

theorem shiftLeft_lor_eq_of_lt (a n b : Nat) (hb : b < 2 ^ n) :
    (a <<< n) ||| b = a * 2 ^ n + b := by
  induction n generalizing b with
  | zero =>
    have hb0 : b = 0 := by
      simpa using hb
    subst hb0
    simp [Nat.shiftLeft_zero]
  | succ n ih =>
    have hdecomp : Nat.bit (b.testBit 0) (b >>> 1) = b :=
      Nat.bit_testBit_zero_shiftRight_one b
    have hshift : a <<< (n + 1) = Nat.bit false (a <<< n) := by
      simp [Nat.bit, Nat.shiftLeft_eq, pow_succ]
      ring
    have hb2 : b >>> 1 < 2 ^ n := by
      rw [Nat.shiftRight_one]
      rw [pow_succ] at hb
      omega
    rw [← hdecomp, hshift, Nat.lor_bit, Bool.false_or, ih (b >>> 1) hb2]
    rw [Nat.bit_val, Nat.shiftRight_one, Nat.testBit_zero]
    have hmul : a * 2 ^ (n + 1) = 2 * (a * 2 ^ n) := by ring
    rw [hmul]
    rcases Nat.mod_two_eq_zero_or_one b with h | h <;>
      simp [h] <;> omega

theorem makeWord_eq (a b : Nat) (hb : b < 256) : makeWord a b = a * 256 + b := by
  have h := shiftLeft_lor_eq_of_lt a 8 b (by norm_num [hb])
  simpa [makeWord] using h

theorem runPMS_append (s : PmsState) (l1 l2 : List (Nat × Nat)) :
    runPMS s (l1 ++ l2) =
      ((runPMS (runPMS s l1).1 l2).1,
        (runPMS s l1).2 ++ (runPMS (runPMS s l1).1 l2).2) := by
  induction l1 generalizing s with
  | nil => simp [runPMS]
  | cons hd tl ih =>
    obtain ⟨t, ch⟩ := hd
    simp only [List.cons_append, runPMS]
    by_cases h : (loopStep s t ch).status = PmsStatus.OK <;>
      simp [h, ih, List.append_assoc]

theorem runPMS_cons_wait (s s' : PmsState) (t ch : Nat) (rest : List (Nat × Nat))
    (h : loopStep s t ch = s') (hw : s'.status = PmsStatus.WAIT) :
    runPMS s ((t, ch) :: rest) = runPMS s' rest := by
  simp only [runPMS, h]
  rw [if_neg]
  rw [hw]
  simp

theorem runPMS_cons_ok (s s' : PmsState) (t ch : Nat) (rest : List (Nat × Nat))
    (h : loopStep s t ch = s') (hok : s'.status = PmsStatus.OK)
    (dd : PmsDATA) (hdat : s'.data = some dd) :
    runPMS s ((t, ch) :: rest) =
      ((runPMS { s' with status := PmsStatus.WAIT } rest).1,
        dd :: (runPMS { s' with status := PmsStatus.WAIT } rest).2) := by
  simp only [runPMS, h, hok, hdat]
  simp

/-- Running 16-bit checksum after the 4 header bytes (value 171) and the
first `k` data bytes of a well-formed frame. -/
def cckAfter (d : Nat → Nat) : Nat → Nat
  | 0 => 171
  | k + 1 => (cckAfter d k + d k) % 65536

/-- Payload buffer contents after the first `k` data bytes of a frame have
been stored into slots `0 .. k-1`. -/
def payloadAfter (spl d : Nat → Nat) : Nat → (Nat → Nat)
  | 0 => spl
  | k + 1 => Function.update (payloadAfter spl d k) k (d k)

/-- The stamped byte stream of a complete frame with the first `k` bytes
already consumed. -/
def stampedFrameFrom (d : Nat → Nat) (hi lo k : Nat) : List (Nat × Nat) :=
  ((frameBytesWithCk d hi lo).drop k).map fun b => (0, b)

/-- Processing the last byte of a frame: the transmitted checksum is
assembled and compared with the running sum; on a match the twelve data
words are mapped and the status becomes `OK`, otherwise only the parser
index is reset. -/
theorem loopStep_finalByte (sck : Nat) (spl : Nat → Nat) (sdt : Option PmsDATA)
    (d : Nat → Nat) (hi lo : Nat) :
    loopStep ⟨PmsStatus.WAIT, 31, 28, sck, cckAfter d 26,
        Function.update (payloadAfter spl d 26) 26 hi, 0, sdt⟩ 0 lo =
      (if cckAfter d 26 = makeWord hi lo % 65536 then
        ⟨PmsStatus.OK, 0, 28, makeWord hi lo % 65536, cckAfter d 26,
          Function.update (payloadAfter spl d 26) 26 hi, 0,
          some ⟨makeWord (d 0) (d 1), makeWord (d 2) (d 3), makeWord (d 4) (d 5),
                makeWord (d 6) (d 7), makeWord (d 8) (d 9), makeWord (d 10) (d 11),
                makeWord (d 12) (d 13), makeWord (d 14) (d 15), makeWord (d 16) (d 17),
                makeWord (d 18) (d 19), makeWord (d 20) (d 21), makeWord (d 22) (d 23)⟩⟩
      else
        ⟨PmsStatus.WAIT, 0, 28, makeWord hi lo % 65536, cckAfter d 26,
          Function.update (payloadAfter spl d 26) 26 hi, 0, sdt⟩) := rfl



/-- A fresh parser consumes the first 31 bytes of a complete frame
(sync bytes, length field 28, the 26 data bytes and the checksum high
byte) without producing a frame, ending at parser index 31. -/
theorem runPMS_frame_to_S31 (sfl sck scck slbt : Nat) (spl : Nat → Nat)
    (sdt : Option PmsDATA) (d : Nat → Nat) (hi lo : Nat) :
    runPMS ⟨PmsStatus.WAIT, 0, sfl, sck, scck, spl, slbt, sdt⟩
        (stamp0 (frameBytesWithCk d hi lo)) =
      runPMS ⟨PmsStatus.WAIT, 31, 28, sck, cckAfter d 26,
        Function.update (payloadAfter spl d 26) 26 hi, 0, sdt⟩ [(0, lo)] := by
  have e0 : runPMS ⟨PmsStatus.WAIT, 0, sfl, sck, scck, spl, slbt, sdt⟩ (stamp0 (frameBytesWithCk d hi lo)) =
      runPMS ⟨PmsStatus.WAIT, 1, sfl, sck, 66, spl, 0, sdt⟩ (stampedFrameFrom d hi lo 1) :=
    runPMS_cons_wait _ _ 0 66 _ rfl rfl
  have e1 : runPMS ⟨PmsStatus.WAIT, 1, sfl, sck, 66, spl, 0, sdt⟩ (stampedFrameFrom d hi lo 1) =
      runPMS ⟨PmsStatus.WAIT, 2, sfl, sck, 143, spl, 0, sdt⟩ (stampedFrameFrom d hi lo 2) :=
    runPMS_cons_wait _ _ 0 77 _ rfl rfl
  have e2 : runPMS ⟨PmsStatus.WAIT, 2, sfl, sck, 143, spl, 0, sdt⟩ (stampedFrameFrom d hi lo 2) =
      runPMS ⟨PmsStatus.WAIT, 3, 0, sck, 143, spl, 0, sdt⟩ (stampedFrameFrom d hi lo 3) :=
    runPMS_cons_wait _ _ 0 0 _ rfl rfl
  have e3 : runPMS ⟨PmsStatus.WAIT, 3, 0, sck, 143, spl, 0, sdt⟩ (stampedFrameFrom d hi lo 3) =
      runPMS ⟨PmsStatus.WAIT, 4, 28, sck, cckAfter d 0, payloadAfter spl d 0, 0, sdt⟩ (stampedFrameFrom d hi lo 4) :=
    by
      refine runPMS_cons_wait _ _ 0 28 _ ?_ rfl
      have hlor : ((0 : Nat) ||| 28) % 65536 = 28 := by simp
      simp [loopStep, loopCore, hlor, cckAfter, payloadAfter, FRAME_TIMEOUT_MS]
  have e4 : runPMS ⟨PmsStatus.WAIT, 4, 28, sck, cckAfter d 0, payloadAfter spl d 0, 0, sdt⟩ (stampedFrameFrom d hi lo 4) =
      runPMS ⟨PmsStatus.WAIT, 5, 28, sck, cckAfter d 1, payloadAfter spl d 1, 0, sdt⟩ (stampedFrameFrom d hi lo 5) :=
    runPMS_cons_wait _ _ 0 (d 0) _ rfl rfl
  have e5 : runPMS ⟨PmsStatus.WAIT, 5, 28, sck, cckAfter d 1, payloadAfter spl d 1, 0, sdt⟩ (stampedFrameFrom d hi lo 5) =
      runPMS ⟨PmsStatus.WAIT, 6, 28, sck, cckAfter d 2, payloadAfter spl d 2, 0, sdt⟩ (stampedFrameFrom d hi lo 6) :=
    runPMS_cons_wait _ _ 0 (d 1) _ rfl rfl
  have e6 : runPMS ⟨PmsStatus.WAIT, 6, 28, sck, cckAfter d 2, payloadAfter spl d 2, 0, sdt⟩ (stampedFrameFrom d hi lo 6) =
      runPMS ⟨PmsStatus.WAIT, 7, 28, sck, cckAfter d 3, payloadAfter spl d 3, 0, sdt⟩ (stampedFrameFrom d hi lo 7) :=
    runPMS_cons_wait _ _ 0 (d 2) _ rfl rfl
  have e7 : runPMS ⟨PmsStatus.WAIT, 7, 28, sck, cckAfter d 3, payloadAfter spl d 3, 0, sdt⟩ (stampedFrameFrom d hi lo 7) =
      runPMS ⟨PmsStatus.WAIT, 8, 28, sck, cckAfter d 4, payloadAfter spl d 4, 0, sdt⟩ (stampedFrameFrom d hi lo 8) :=
    runPMS_cons_wait _ _ 0 (d 3) _ rfl rfl
  have e8 : runPMS ⟨PmsStatus.WAIT, 8, 28, sck, cckAfter d 4, payloadAfter spl d 4, 0, sdt⟩ (stampedFrameFrom d hi lo 8) =
      runPMS ⟨PmsStatus.WAIT, 9, 28, sck, cckAfter d 5, payloadAfter spl d 5, 0, sdt⟩ (stampedFrameFrom d hi lo 9) :=
    runPMS_cons_wait _ _ 0 (d 4) _ rfl rfl
  have e9 : runPMS ⟨PmsStatus.WAIT, 9, 28, sck, cckAfter d 5, payloadAfter spl d 5, 0, sdt⟩ (stampedFrameFrom d hi lo 9) =
      runPMS ⟨PmsStatus.WAIT, 10, 28, sck, cckAfter d 6, payloadAfter spl d 6, 0, sdt⟩ (stampedFrameFrom d hi lo 10) :=
    runPMS_cons_wait _ _ 0 (d 5) _ rfl rfl
  have e10 : runPMS ⟨PmsStatus.WAIT, 10, 28, sck, cckAfter d 6, payloadAfter spl d 6, 0, sdt⟩ (stampedFrameFrom d hi lo 10) =
      runPMS ⟨PmsStatus.WAIT, 11, 28, sck, cckAfter d 7, payloadAfter spl d 7, 0, sdt⟩ (stampedFrameFrom d hi lo 11) :=
    runPMS_cons_wait _ _ 0 (d 6) _ rfl rfl
  have e11 : runPMS ⟨PmsStatus.WAIT, 11, 28, sck, cckAfter d 7, payloadAfter spl d 7, 0, sdt⟩ (stampedFrameFrom d hi lo 11) =
      runPMS ⟨PmsStatus.WAIT, 12, 28, sck, cckAfter d 8, payloadAfter spl d 8, 0, sdt⟩ (stampedFrameFrom d hi lo 12) :=
    runPMS_cons_wait _ _ 0 (d 7) _ rfl rfl
  have e12 : runPMS ⟨PmsStatus.WAIT, 12, 28, sck, cckAfter d 8, payloadAfter spl d 8, 0, sdt⟩ (stampedFrameFrom d hi lo 12) =
      runPMS ⟨PmsStatus.WAIT, 13, 28, sck, cckAfter d 9, payloadAfter spl d 9, 0, sdt⟩ (stampedFrameFrom d hi lo 13) :=
    runPMS_cons_wait _ _ 0 (d 8) _ rfl rfl
  have e13 : runPMS ⟨PmsStatus.WAIT, 13, 28, sck, cckAfter d 9, payloadAfter spl d 9, 0, sdt⟩ (stampedFrameFrom d hi lo 13) =
      runPMS ⟨PmsStatus.WAIT, 14, 28, sck, cckAfter d 10, payloadAfter spl d 10, 0, sdt⟩ (stampedFrameFrom d hi lo 14) :=
    runPMS_cons_wait _ _ 0 (d 9) _ rfl rfl
  have e14 : runPMS ⟨PmsStatus.WAIT, 14, 28, sck, cckAfter d 10, payloadAfter spl d 10, 0, sdt⟩ (stampedFrameFrom d hi lo 14) =
      runPMS ⟨PmsStatus.WAIT, 15, 28, sck, cckAfter d 11, payloadAfter spl d 11, 0, sdt⟩ (stampedFrameFrom d hi lo 15) :=
    runPMS_cons_wait _ _ 0 (d 10) _ rfl rfl
  have e15 : runPMS ⟨PmsStatus.WAIT, 15, 28, sck, cckAfter d 11, payloadAfter spl d 11, 0, sdt⟩ (stampedFrameFrom d hi lo 15) =
      runPMS ⟨PmsStatus.WAIT, 16, 28, sck, cckAfter d 12, payloadAfter spl d 12, 0, sdt⟩ (stampedFrameFrom d hi lo 16) :=
    runPMS_cons_wait _ _ 0 (d 11) _ rfl rfl
  have e16 : runPMS ⟨PmsStatus.WAIT, 16, 28, sck, cckAfter d 12, payloadAfter spl d 12, 0, sdt⟩ (stampedFrameFrom d hi lo 16) =
      runPMS ⟨PmsStatus.WAIT, 17, 28, sck, cckAfter d 13, payloadAfter spl d 13, 0, sdt⟩ (stampedFrameFrom d hi lo 17) :=
    runPMS_cons_wait _ _ 0 (d 12) _ rfl rfl
  have e17 : runPMS ⟨PmsStatus.WAIT, 17, 28, sck, cckAfter d 13, payloadAfter spl d 13, 0, sdt⟩ (stampedFrameFrom d hi lo 17) =
      runPMS ⟨PmsStatus.WAIT, 18, 28, sck, cckAfter d 14, payloadAfter spl d 14, 0, sdt⟩ (stampedFrameFrom d hi lo 18) :=
    runPMS_cons_wait _ _ 0 (d 13) _ rfl rfl
  have e18 : runPMS ⟨PmsStatus.WAIT, 18, 28, sck, cckAfter d 14, payloadAfter spl d 14, 0, sdt⟩ (stampedFrameFrom d hi lo 18) =
      runPMS ⟨PmsStatus.WAIT, 19, 28, sck, cckAfter d 15, payloadAfter spl d 15, 0, sdt⟩ (stampedFrameFrom d hi lo 19) :=
    runPMS_cons_wait _ _ 0 (d 14) _ rfl rfl
  have e19 : runPMS ⟨PmsStatus.WAIT, 19, 28, sck, cckAfter d 15, payloadAfter spl d 15, 0, sdt⟩ (stampedFrameFrom d hi lo 19) =
      runPMS ⟨PmsStatus.WAIT, 20, 28, sck, cckAfter d 16, payloadAfter spl d 16, 0, sdt⟩ (stampedFrameFrom d hi lo 20) :=
    runPMS_cons_wait _ _ 0 (d 15) _ rfl rfl
  have e20 : runPMS ⟨PmsStatus.WAIT, 20, 28, sck, cckAfter d 16, payloadAfter spl d 16, 0, sdt⟩ (stampedFrameFrom d hi lo 20) =
      runPMS ⟨PmsStatus.WAIT, 21, 28, sck, cckAfter d 17, payloadAfter spl d 17, 0, sdt⟩ (stampedFrameFrom d hi lo 21) :=
    runPMS_cons_wait _ _ 0 (d 16) _ rfl rfl
  have e21 : runPMS ⟨PmsStatus.WAIT, 21, 28, sck, cckAfter d 17, payloadAfter spl d 17, 0, sdt⟩ (stampedFrameFrom d hi lo 21) =
      runPMS ⟨PmsStatus.WAIT, 22, 28, sck, cckAfter d 18, payloadAfter spl d 18, 0, sdt⟩ (stampedFrameFrom d hi lo 22) :=
    runPMS_cons_wait _ _ 0 (d 17) _ rfl rfl
  have e22 : runPMS ⟨PmsStatus.WAIT, 22, 28, sck, cckAfter d 18, payloadAfter spl d 18, 0, sdt⟩ (stampedFrameFrom d hi lo 22) =
      runPMS ⟨PmsStatus.WAIT, 23, 28, sck, cckAfter d 19, payloadAfter spl d 19, 0, sdt⟩ (stampedFrameFrom d hi lo 23) :=
    runPMS_cons_wait _ _ 0 (d 18) _ rfl rfl
  have e23 : runPMS ⟨PmsStatus.WAIT, 23, 28, sck, cckAfter d 19, payloadAfter spl d 19, 0, sdt⟩ (stampedFrameFrom d hi lo 23) =
      runPMS ⟨PmsStatus.WAIT, 24, 28, sck, cckAfter d 20, payloadAfter spl d 20, 0, sdt⟩ (stampedFrameFrom d hi lo 24) :=
    runPMS_cons_wait _ _ 0 (d 19) _ rfl rfl
  have e24 : runPMS ⟨PmsStatus.WAIT, 24, 28, sck, cckAfter d 20, payloadAfter spl d 20, 0, sdt⟩ (stampedFrameFrom d hi lo 24) =
      runPMS ⟨PmsStatus.WAIT, 25, 28, sck, cckAfter d 21, payloadAfter spl d 21, 0, sdt⟩ (stampedFrameFrom d hi lo 25) :=
    runPMS_cons_wait _ _ 0 (d 20) _ rfl rfl
  have e25 : runPMS ⟨PmsStatus.WAIT, 25, 28, sck, cckAfter d 21, payloadAfter spl d 21, 0, sdt⟩ (stampedFrameFrom d hi lo 25) =
      runPMS ⟨PmsStatus.WAIT, 26, 28, sck, cckAfter d 22, payloadAfter spl d 22, 0, sdt⟩ (stampedFrameFrom d hi lo 26) :=
    runPMS_cons_wait _ _ 0 (d 21) _ rfl rfl
  have e26 : runPMS ⟨PmsStatus.WAIT, 26, 28, sck, cckAfter d 22, payloadAfter spl d 22, 0, sdt⟩ (stampedFrameFrom d hi lo 26) =
      runPMS ⟨PmsStatus.WAIT, 27, 28, sck, cckAfter d 23, payloadAfter spl d 23, 0, sdt⟩ (stampedFrameFrom d hi lo 27) :=
    runPMS_cons_wait _ _ 0 (d 22) _ rfl rfl
  have e27 : runPMS ⟨PmsStatus.WAIT, 27, 28, sck, cckAfter d 23, payloadAfter spl d 23, 0, sdt⟩ (stampedFrameFrom d hi lo 27) =
      runPMS ⟨PmsStatus.WAIT, 28, 28, sck, cckAfter d 24, payloadAfter spl d 24, 0, sdt⟩ (stampedFrameFrom d hi lo 28) :=
    runPMS_cons_wait _ _ 0 (d 23) _ rfl rfl
  have e28 : runPMS ⟨PmsStatus.WAIT, 28, 28, sck, cckAfter d 24, payloadAfter spl d 24, 0, sdt⟩ (stampedFrameFrom d hi lo 28) =
      runPMS ⟨PmsStatus.WAIT, 29, 28, sck, cckAfter d 25, payloadAfter spl d 25, 0, sdt⟩ (stampedFrameFrom d hi lo 29) :=
    runPMS_cons_wait _ _ 0 (d 24) _ rfl rfl
  have e29 : runPMS ⟨PmsStatus.WAIT, 29, 28, sck, cckAfter d 25, payloadAfter spl d 25, 0, sdt⟩ (stampedFrameFrom d hi lo 29) =
      runPMS ⟨PmsStatus.WAIT, 30, 28, sck, cckAfter d 26, payloadAfter spl d 26, 0, sdt⟩ (stampedFrameFrom d hi lo 30) :=
    runPMS_cons_wait _ _ 0 (d 25) _ rfl rfl
  have e30 : runPMS ⟨PmsStatus.WAIT, 30, 28, sck, cckAfter d 26, payloadAfter spl d 26, 0, sdt⟩ (stampedFrameFrom d hi lo 30) =
      runPMS ⟨PmsStatus.WAIT, 31, 28, sck, cckAfter d 26, Function.update (payloadAfter spl d 26) 26 hi, 0, sdt⟩ (stampedFrameFrom d hi lo 31) :=
    runPMS_cons_wait _ _ 0 hi _ rfl rfl
  rw [e0, e1, e2, e3, e4, e5, e6, e7, e8, e9, e10, e11, e12, e13, e14, e15, e16, e17, e18, e19, e20, e21, e22, e23, e24, e25, e26, e27, e28, e29, e30]
  rfl

theorem cckAfter26_eq (d : Nat → Nat) :
    cckAfter d 26 = (171 + d 0 + d 1 + d 2 + d 3 + d 4 + d 5 + d 6 + d 7 + d 8 + d 9 + d 10 + d 11 + d 12 + d 13 + d 14 + d 15 + d 16 + d 17 + d 18 + d 19 + d 20 + d 21 + d 22 + d 23 + d 24 + d 25) % 65536 := by
  have h : cckAfter d 26 =
      ((((((((((((((((((((((((((171 + d 0) % 65536 + d 1) % 65536 + d 2) % 65536 + d 3) % 65536 + d 4) % 65536 + d 5) % 65536 + d 6) % 65536 + d 7) % 65536 + d 8) % 65536 + d 9) % 65536 + d 10) % 65536 + d 11) % 65536 + d 12) % 65536 + d 13) % 65536 + d 14) % 65536 + d 15) % 65536 + d 16) % 65536 + d 17) % 65536 + d 18) % 65536 + d 19) % 65536 + d 20) % 65536 + d 21) % 65536 + d 22) % 65536 + d 23) % 65536 + d 24) % 65536 + d 25) % 65536 := rfl
  rw [h]
  simp only [Nat.mod_add_mod]

/-- The running checksum accumulated over a complete frame equals the
16-bit sum of all frame bytes before the transmitted checksum. -/
theorem cckAfter26_eq_checksum (d : Nat → Nat) : cckAfter d 26 = frameChecksum16 d := by
  rw [cckAfter26_eq]
  simp only [frameChecksum16]
  simp only [Finset.sum_range_succ, Finset.sum_range_zero]
  omega

/-- A complete frame with a matching transmitted checksum is accepted by a
fresh parser: exactly one `DATA` record with the twelve big-endian payload
words is produced and the parser returns to the start state. -/
theorem runPMS_goodFrame_run (sfl sck scck slbt : Nat) (spl : Nat → Nat)
    (sdt : Option PmsDATA) (d : Nat → Nat) (hi lo : Nat)
    (hd : ∀ i, i < 26 → d i < 256) (hhi : hi < 256) (hlo : lo < 256)
    (hck : frameChecksum16 d = hi * 256 + lo) :
    runPMS ⟨PmsStatus.WAIT, 0, sfl, sck, scck, spl, slbt, sdt⟩
        (stamp0 (frameBytesWithCk d hi lo)) =
      (⟨PmsStatus.WAIT, 0, 28, makeWord hi lo % 65536, cckAfter d 26,
          Function.update (payloadAfter spl d 26) 26 hi, 0, some (expectedDATA d)⟩,
        [expectedDATA d]) := by
  rw [runPMS_frame_to_S31]
  have hc : cckAfter d 26 = makeWord hi lo % 65536 := by
    rw [cckAfter26_eq_checksum, hck, makeWord_eq hi lo hlo]
    omega
  have hdat : expectedDATA d =
      ⟨makeWord (d 0) (d 1), makeWord (d 2) (d 3), makeWord (d 4) (d 5),
        makeWord (d 6) (d 7), makeWord (d 8) (d 9), makeWord (d 10) (d 11),
        makeWord (d 12) (d 13), makeWord (d 14) (d 15), makeWord (d 16) (d 17),
        makeWord (d 18) (d 19), makeWord (d 20) (d 21), makeWord (d 22) (d 23)⟩ := by
    simp [expectedDATA,
      makeWord_eq (d 0) (d 1) (hd 1 (by norm_num)),
      makeWord_eq (d 2) (d 3) (hd 3 (by norm_num)),
      makeWord_eq (d 4) (d 5) (hd 5 (by norm_num)),
      makeWord_eq (d 6) (d 7) (hd 7 (by norm_num)),
      makeWord_eq (d 8) (d 9) (hd 9 (by norm_num)),
      makeWord_eq (d 10) (d 11) (hd 11 (by norm_num)),
      makeWord_eq (d 12) (d 13) (hd 13 (by norm_num)),
      makeWord_eq (d 14) (d 15) (hd 15 (by norm_num)),
      makeWord_eq (d 16) (d 17) (hd 17 (by norm_num)),
      makeWord_eq (d 18) (d 19) (hd 19 (by norm_num)),
      makeWord_eq (d 20) (d 21) (hd 21 (by norm_num)),
      makeWord_eq (d 22) (d 23) (hd 23 (by norm_num))]
  simp only [runPMS]
  rw [loopStep_finalByte, if_pos hc]
  simp [runPMS, hdat]

/-- A complete frame whose transmitted checksum does not match the running
sum is rejected by a fresh parser: no `DATA` record is produced and the
parser silently returns to the start state. -/
theorem runPMS_badFrame_run (sfl sck scck slbt : Nat) (spl : Nat → Nat)
    (sdt : Option PmsDATA) (d : Nat → Nat) (hi lo : Nat)
    (hhi : hi < 256) (hlo : lo < 256)
    (hckne : frameChecksum16 d ≠ hi * 256 + lo) :
    runPMS ⟨PmsStatus.WAIT, 0, sfl, sck, scck, spl, slbt, sdt⟩
        (stamp0 (frameBytesWithCk d hi lo)) =
      (⟨PmsStatus.WAIT, 0, 28, makeWord hi lo % 65536, cckAfter d 26,
          Function.update (payloadAfter spl d 26) 26 hi, 0, sdt⟩, []) := by
  rw [runPMS_frame_to_S31]
  have hc : ¬(cckAfter d 26 = makeWord hi lo % 65536) := by
    rw [cckAfter26_eq_checksum, makeWord_eq hi lo hlo]
    intro h
    apply hckne
    omega
  simp only [runPMS]
  rw [loopStep_finalByte, if_neg hc]
  simp [runPMS]

-- ============================================================================
-- C1 : frame decoding with checksum validation and resynchronization
-- ============================================================================

theorem frameChecksum16_lt (d : Nat → Nat) : frameChecksum16 d < 65536 := by
  simp only [frameChecksum16]
  omega

/-- Claim C1: a complete frame with sync bytes 0x42 0x4D, length field 28
and a trailing 16-bit checksum equal to the sum of all preceding frame
bytes decodes to exactly one `DATA` record whose twelve 16-bit fields are
the frame's big-endian payload words; corrupting a single payload byte
(which invalidates the checksum) yields no frame for that transmission,
and a valid frame appended immediately after it still decodes. -/
theorem frame_decoder_spec :
    (∀ d : Nat → Nat, (∀ i, i < 26 → d i < 256) →
      decodedFrames (goodFrame d) = [expectedDATA d]) ∧
    (∀ d d2 : Nat → Nat, (∀ i, i < 26 → d i < 256) → (∀ i, i < 26 → d2 i < 256) →
      ∀ j, j < 26 → ∀ b, b < 256 → b ≠ d j →
      decodedFrames (frameBytesWithCk (Function.update d j b)
          (frameChecksum16 d / 256) (frameChecksum16 d % 256) ++ goodFrame d2) =
        [expectedDATA d2]) := by
  have hcomp : ∀ d : Nat → Nat,
      frameChecksum16 d = frameChecksum16 d / 256 * 256 + frameChecksum16 d % 256 := by
    intro d
    omega
  have hhi : ∀ d : Nat → Nat, frameChecksum16 d / 256 < 256 := by
    intro d
    have := frameChecksum16_lt d
    omega
  have hlo : ∀ d : Nat → Nat, frameChecksum16 d % 256 < 256 := by
    intro d
    omega
  constructor
  · intro d hd
    simp only [decodedFrames, goodFrame, initPmsState]
    rw [runPMS_goodFrame_run 0 0 0 0 (fun _ => 0) none d _ _ hd (hhi d) (hlo d) (hcomp d)]
  · intro d d2 hd hd2 j hj b hb hbne
    -- the corrupted frame has a different byte sum, hence an invalid checksum
    have hjmem : j ∈ Finset.range 26 := Finset.mem_range.mpr hj
    have h1 : ∑ i ∈ Finset.range 26, Function.update d j b i =
        b + ∑ i ∈ (Finset.range 26).erase j, d i := by
      rw [Finset.sum_update_of_mem hjmem]
      congr 1
      rw [Finset.sdiff_singleton_eq_erase]
    have h2 : ∑ i ∈ Finset.range 26, d i =
        d j + ∑ i ∈ (Finset.range 26).erase j, d i :=
      (Finset.add_sum_erase _ d hjmem).symm
    have hScard : ((Finset.range 26).erase j).card = 25 := by
      rw [Finset.card_erase_of_mem hjmem, Finset.card_range]
    have hSb : ∑ i ∈ (Finset.range 26).erase j, d i ≤ 6375 := by
      have hb255 : ∀ i ∈ (Finset.range 26).erase j, d i ≤ 255 := by
        intro i hi
        have : i ∈ Finset.range 26 := Finset.mem_of_mem_erase hi
        have := hd i (Finset.mem_range.mp this)
        omega
      have := Finset.sum_le_card_nsmul _ _ 255 hb255
      rw [hScard] at this
      simpa using this
    have hdj : d j < 256 := hd j hj
    have hckne : frameChecksum16 (Function.update d j b) ≠
        frameChecksum16 d / 256 * 256 + frameChecksum16 d % 256 := by
      rw [← hcomp d]
      simp only [frameChecksum16, h1, h2]
      omega
    have hsplit : stamp0 (frameBytesWithCk (Function.update d j b)
        (frameChecksum16 d / 256) (frameChecksum16 d % 256) ++ goodFrame d2) =
        stamp0 (frameBytesWithCk (Function.update d j b)
          (frameChecksum16 d / 256) (frameChecksum16 d % 256)) ++
          stamp0 (goodFrame d2) := by
      simp [stamp0]
    simp only [decodedFrames, hsplit]
    rw [runPMS_append]
    simp only [goodFrame, initPmsState]
    rw [runPMS_badFrame_run 0 0 0 0 (fun _ => 0) none _ _ _ (hhi d) (hlo d) hckne]
    rw [runPMS_goodFrame_run _ _ _ _ _ _ d2 _ _ hd2 (hhi d2) (hlo d2) (hcomp d2)]
    simp

set_option maxRecDepth 4000 in
/-- Witness for C1 at a concrete frame (data bytes `d i = i`, corrupting
payload byte 0 to 200 in the second part). -/
theorem frame_decoder_spec_witness :
    (decodedFrames (goodFrame fun i => i) = [expectedDATA fun i => i]) ∧
    (decodedFrames (frameBytesWithCk (Function.update (fun i => i) 0 200)
        ((frameChecksum16 fun i => i) / 256) ((frameChecksum16 fun i => i) % 256) ++
        goodFrame fun i => i) = [expectedDATA fun i => i]) := by
  have hb : ∀ i, i < 26 → (fun i => i) i < 256 := fun i h => Nat.lt_trans h (by norm_num)
  constructor
  · exact frame_decoder_spec.1 (fun i => i) hb
  · exact frame_decoder_spec.2 (fun i => i) (fun i => i) hb hb 0 (by norm_num) 200
      (by norm_num) (by norm_num)

-- ============================================================================
-- C5 : resync on bad length field and on inter-byte timeout
-- ============================================================================

/-- Processing the second length byte when the assembled 16-bit length
field is not 28: the parser resets to the start-of-frame state. -/
theorem loopStep_lengthByte (sck : Nat) (spl : Nat → Nat) (sdt : Option PmsDATA)
    (hi lo : Nat) :
    loopStep ⟨PmsStatus.WAIT, 3, (hi <<< 8) % 65536, sck, (143 + hi) % 65536,
        spl, 0, sdt⟩ 0 lo =
      (if ((hi <<< 8) % 65536 ||| lo) % 65536 ≠ 28 then
        ⟨PmsStatus.WAIT, 0, ((hi <<< 8) % 65536 ||| lo) % 65536, sck,
          ((143 + hi) % 65536 + lo) % 65536, spl, 0, sdt⟩
      else
        ⟨PmsStatus.WAIT, 4, ((hi <<< 8) % 65536 ||| lo) % 65536, sck,
          ((143 + hi) % 65536 + lo) % 65536, spl, 0, sdt⟩) := rfl

/-- Claim C5: the decoder produces no frame and returns to the
start-of-frame state whenever the 16-bit length field differs from 28
(conjunct 1, with the status left at `WAIT` — no error is surfaced); and
whenever more than `FRAME_TIMEOUT_MS` elapses between consecutive bytes
while a frame is partially assembled, the partial frame is discarded and the
byte is handled exactly as from the start state, again with the status
unchanged (conjunct 2). -/
theorem decoder_resync_spec :
    (∀ s : PmsState, s.index = 0 → s.status = PmsStatus.WAIT →
      ∀ hi lo : Nat, hi < 256 → lo < 256 → makeWord hi lo ≠ 28 →
      (runPMS s (stamp0 [0x42, 0x4D, hi, lo])).2 = [] ∧
      (runPMS s (stamp0 [0x42, 0x4D, hi, lo])).1.index = 0 ∧
      (runPMS s (stamp0 [0x42, 0x4D, hi, lo])).1.status = PmsStatus.WAIT) ∧
    (∀ (s : PmsState) (now ch : Nat), 0 < s.index →
      now - s.lastByteTime > FRAME_TIMEOUT_MS →
      loopStep s now ch = loopStep { s with index := 0 } now ch ∧
      (loopStep s now ch).status = s.status) := by
  constructor
  · intro s hidx hst hi lo hhi hlo hlen
    obtain ⟨sst, sidx, sfl, sck, scck, spl, slbt, sdt⟩ := s
    dsimp only at hidx hst
    subst hidx
    subst hst
    have e0 : runPMS ⟨PmsStatus.WAIT, 0, sfl, sck, scck, spl, slbt, sdt⟩
        (stamp0 [0x42, 0x4D, hi, lo]) =
        runPMS ⟨PmsStatus.WAIT, 1, sfl, sck, 66, spl, 0, sdt⟩
          [(0, 0x4D), (0, hi), (0, lo)] :=
      runPMS_cons_wait _ _ 0 66 _ rfl rfl
    have e1 : runPMS ⟨PmsStatus.WAIT, 1, sfl, sck, 66, spl, 0, sdt⟩
        [(0, 0x4D), (0, hi), (0, lo)] =
        runPMS ⟨PmsStatus.WAIT, 2, sfl, sck, 143, spl, 0, sdt⟩ [(0, hi), (0, lo)] :=
      runPMS_cons_wait _ _ 0 77 _ rfl rfl
    have e2 : runPMS ⟨PmsStatus.WAIT, 2, sfl, sck, 143, spl, 0, sdt⟩ [(0, hi), (0, lo)] =
        runPMS ⟨PmsStatus.WAIT, 3, (hi <<< 8) % 65536, sck, (143 + hi) % 65536,
          spl, 0, sdt⟩ [(0, lo)] :=
      runPMS_cons_wait _ _ 0 hi _ rfl rfl
    rw [e0, e1, e2]
    have hc : ((hi <<< 8) % 65536 ||| lo) % 65536 ≠ 28 := by
      have hsh : (hi <<< 8) % 65536 = hi <<< 8 := by
        apply Nat.mod_eq_of_lt
        rw [Nat.shiftLeft_eq]
        omega
      rw [hsh]
      have hmw : (hi <<< 8 ||| lo) = makeWord hi lo := rfl
      rw [hmw, makeWord_eq hi lo hlo]
      have : (hi * 256 + lo) % 65536 = hi * 256 + lo := by
        apply Nat.mod_eq_of_lt
        omega
      rw [this]
      rw [makeWord_eq hi lo hlo] at hlen
      exact hlen
    simp only [runPMS]
    rw [loopStep_lengthByte, if_pos hc]
    simp [runPMS]
  · intro s now ch h1 h2
    have hcond : 0 < s.index ∧ now - s.lastByteTime > FRAME_TIMEOUT_MS := ⟨h1, h2⟩
    have hdrop : loopStep s now ch =
        loopCore { s with index := 0, lastByteTime := now } ch := by
      simp only [loopStep, if_pos hcond]
    have hdrop2 : loopStep { s with index := 0 } now ch =
        loopCore { s with index := 0, lastByteTime := now } ch := by
      simp [loopStep]
    have hcore : (loopCore { s with index := 0, lastByteTime := now } ch).status
        = s.status := by
      by_cases hch : ch = 0x42 <;> simp [loopCore, hch]
    exact ⟨hdrop.trans hdrop2.symm, hdrop ▸ hcore⟩

/-- Witness for C5 at concrete inputs: a header announcing length 29 is
discarded with the parser back at the start state, and a timed-out partial
parse handles the next byte exactly as a fresh parser would. -/
theorem decoder_resync_spec_witness :
    ((runPMS initPmsState (stamp0 [0x42, 0x4D, 0, 29])).2 = [] ∧
      (runPMS initPmsState (stamp0 [0x42, 0x4D, 0, 29])).1.index = 0 ∧
      (runPMS initPmsState (stamp0 [0x42, 0x4D, 0, 29])).1.status = PmsStatus.WAIT) ∧
    (loopStep { initPmsState with index := 5 } 200 66 =
      loopStep { { initPmsState with index := 5 } with index := 0 } 200 66 ∧
      (loopStep { initPmsState with index := 5 } 200 66).status =
        ({ initPmsState with index := 5 } : PmsState).status) :=
  ⟨decoder_resync_spec.1 initPmsState rfl rfl 0 29 (by norm_num) (by norm_num)
      (by decide),
   decoder_resync_spec.2 { initPmsState with index := 5 } 200 66 (by norm_num)
      (by norm_num [FRAME_TIMEOUT_MS, initPmsState])⟩
